import Mathlib

set_option maxHeartbeats 1000000

/-!
Verification development for the kube-fwd-socks repository: a shallow
embedding of its SOCKS4/4a/5 wire codecs, the cluster resolver and the
per-connection handlers, with theorems settling the specification claims.

Conventions of the embedding:
* machine bytes are `Nat` (each < 256 on real streams); byte streams are
  `List Nat` read from the front;
* a parser takes the stream and returns its result together with the unread
  remainder of the stream, so byte consumption is observable;
* `u16` values are `Nat`, `i32` values are `Int`;
* Rust `String` values carrying cluster names are Lean `String`; the DNS
  address carried inside a SOCKS5 frame is kept at byte level (`List Nat`,
  the UTF-8 bytes of the Rust `String`);
* async I/O failure is collapsed into a single `Io` error case; the claims
  under study do not distinguish I/O error payloads.
-/

deriving instance DecidableEq for Except

/-- Big-endian byte pair of a `u16` value, as produced by `u16::to_be_bytes`. -/
def u16be (p : Nat) : List Nat := [p / 256 % 256, p % 256]

/-- Reads exactly `n` bytes from the stream (`read_exact`): the bytes read and
the remainder, or `none` when the stream is too short. -/
def readExact (n : Nat) (s : List Nat) : Option (List Nat × List Nat) :=
  if n ≤ s.length then some (s.take n, s.drop n) else none

/-- Embeds `enum Errors` of `src/socks/mod.rs`. -/
inductive ModErrors
  | UnsupportedVersion (v : Nat)
  deriving DecidableEq

namespace v5

/-- Protocol constant `VERSION` of `src/socks/v5.rs`. -/
def VERSION : Nat := 5

def AUTH_NOT_REQUIRED : Nat := 0x00

def AUTH_GSSAPI : Nat := 0x01

def AUTH_USER_PASS : Nat := 0x02

def AUTH_NONE : Nat := 0xFF

def CMD_CONNECT : Nat := 0x01

def CMD_BIND : Nat := 0x02

def CMD_UDP_ASSOCIATE : Nat := 0x3

def ATYPE_IPV4 : Nat := 0x01

def ATYPE_IPV6 : Nat := 0x04

def ATYPE_DNS : Nat := 0x03

def RESP_SUCCEEDED : Nat := 0x00

def RESP_GENERAL_FAILURE : Nat := 0x01

def RESP_DENIED : Nat := 0x02

def RESP_NETWORK_UNREACHABLE : Nat := 0x03

def RESP_HOST_UNREACHABLE : Nat := 0x04

def RESP_CONNECTION_REFUSED : Nat := 0x05

def RESP_TTL_EXPIRED : Nat := 0x06

def RESP_COMMAND_NOT_SUPPORTED : Nat := 0x07

def RESP_ADDRESS_NOT_SUPPORTED : Nat := 0x08

/-- Embeds `enum AuthMethods` of `src/socks/v5.rs`. -/
inductive AuthMethods
  | NotRequired
  | Gssapi
  | Basic
  | None
  deriving DecidableEq

/-- Embeds the `int_enum::IntEnum` conversion `AuthMethods::try_from`. -/
def AuthMethods.tryFrom : Nat → Option AuthMethods
  | 0x00 => some .NotRequired
  | 0x01 => some .Gssapi
  | 0x02 => some .Basic
  | 0xFF => some .None
  | _ => none

/-- Embeds the `AuthMethods as u8` cast (the `repr(u8)` discriminants). -/
def AuthMethods.toByte : AuthMethods → Nat
  | .NotRequired => AUTH_NOT_REQUIRED
  | .Gssapi => AUTH_GSSAPI
  | .Basic => AUTH_USER_PASS
  | .None => AUTH_NONE

/-- Embeds `enum Errors` of `src/socks/v5.rs` (payloads of the `General`
variant are collapsed to the single `ModErrors` case the source produces). -/
inductive Errors
  | General (e : ModErrors)
  | UnsupportedCommand (b : Nat)
  | UnsupportedAddressType (b : Nat)
  deriving DecidableEq

/-- Embeds `enum ParseError` of `src/socks/v5.rs`: a protocol error, an I/O
error, or a UTF-8 decoding error (`FromUtf8Error`, payload dropped). -/
inductive ParseError
  | ProtocolError (e : Errors)
  | Io
  | StringError
  deriving DecidableEq

/-- Embeds `struct AuthRequest` of `src/socks/v5.rs`. -/
structure AuthRequest where
  requests : List AuthMethods
  deriving DecidableEq

/-- Embeds `AuthRequest::contains`. -/
def AuthRequest.contains (r : AuthRequest) (m : AuthMethods) : Bool :=
  r.requests.contains m

/-- Embeds `AuthRequest::parse` of `src/socks/v5.rs`: read the version byte
(reject ≠ 5 with `UnsupportedVersion` wrapped in `General`), read the method
count, read that many method bytes and keep those recognized by
`AuthMethods::try_from` (`filter_map`). -/
def AuthRequest.parse (s : List Nat) : Except ParseError AuthRequest × List Nat :=
  match s with
  | [] => (.error .Io, [])
  | ver :: s1 =>
    if ver ≠ VERSION then
      (.error (.ProtocolError (.General (.UnsupportedVersion ver))), s1)
    else
      match s1 with
      | [] => (.error .Io, [])
      | method_count :: s2 =>
        if method_count = 0 then
          (.ok ⟨[]⟩, s2)
        else
          match readExact method_count s2 with
          | some (buf, rest) => (.ok ⟨buf.filterMap AuthMethods.tryFrom⟩, rest)
          | none => (.error .Io, [])

/-- Embeds `struct AuthResponse` of `src/socks/v5.rs`. -/
structure AuthResponse where
  method : AuthMethods
  deriving DecidableEq

/-- Embeds `AuthResponse::not_required`. -/
def AuthResponse.not_required : AuthResponse := ⟨.NotRequired⟩

/-- Embeds `AuthResponse::none`. -/
def AuthResponse.none : AuthResponse := ⟨.None⟩

/-- Embeds `impl From<AuthResponse> for Vec<u8>`. -/
def AuthResponse.toBytes (r : AuthResponse) : List Nat := [VERSION, r.method.toByte]

/-- Embeds `enum Command` of `src/socks/v5.rs`. -/
inductive Command
  | Connect
  | Bind
  | UdpAssociate
  deriving DecidableEq

/-- Embeds the `int_enum::IntEnum` conversion `Command::try_from`. -/
def Command.tryFrom : Nat → Option Command
  | 0x01 => some .Connect
  | 0x02 => some .Bind
  | 0x03 => some .UdpAssociate
  | _ => none

/-- Embeds `std::net::IpAddr`: four or sixteen octets. -/
inductive IpAddr
  | V4 (octets : List Nat)
  | V6 (octets : List Nat)
  deriving DecidableEq

/-- Embeds `Ipv4Addr::UNSPECIFIED` (0.0.0.0). -/
def Ipv4UNSPECIFIED : IpAddr := .V4 [0, 0, 0, 0]

/-- Embeds `enum Address` of `src/socks/v5.rs`; the `Dns` payload is the
UTF-8 byte content of the Rust `String`. -/
inductive Address
  | IpAddr (a : IpAddr)
  | Dns (s : List Nat)
  deriving DecidableEq

/-- Embeds `impl From<Address> for Vec<u8>`: atype tag then the octets; for
DNS the length byte is `a.len() as u8`, i.e. the length truncated mod 256. -/
def Address.toBytes : Address → List Nat
  | .IpAddr (.V4 o) => ATYPE_IPV4 :: o
  | .IpAddr (.V6 o) => ATYPE_IPV6 :: o
  | .Dns s => ATYPE_DNS :: s.length % 256 :: s

/-- Checks that a byte sequence is well-formed UTF-8 (RFC 3629 table,
including the overlong and surrogate exclusions). Models the validation
performed by `String::from_utf8`. -/
def isValidUtf8 : List Nat → Bool
  | [] => true
  | b :: rest =>
    if b ≤ 0x7F then isValidUtf8 rest
    else
      match rest with
      | [] => false
      | c1 :: rest1 =>
        if 0xC2 ≤ b ∧ b ≤ 0xDF then
          decide (0x80 ≤ c1 ∧ c1 ≤ 0xBF) && isValidUtf8 rest1
        else
          match rest1 with
          | [] => false
          | c2 :: rest2 =>
            if b = 0xE0 then
              decide (0xA0 ≤ c1 ∧ c1 ≤ 0xBF ∧ 0x80 ≤ c2 ∧ c2 ≤ 0xBF) && isValidUtf8 rest2
            else if (0xE1 ≤ b ∧ b ≤ 0xEC) ∨ b = 0xEE ∨ b = 0xEF then
              decide (0x80 ≤ c1 ∧ c1 ≤ 0xBF ∧ 0x80 ≤ c2 ∧ c2 ≤ 0xBF) && isValidUtf8 rest2
            else if b = 0xED then
              decide (0x80 ≤ c1 ∧ c1 ≤ 0x9F ∧ 0x80 ≤ c2 ∧ c2 ≤ 0xBF) && isValidUtf8 rest2
            else
              match rest2 with
              | [] => false
              | c3 :: rest3 =>
                if b = 0xF0 then
                  decide (0x90 ≤ c1 ∧ c1 ≤ 0xBF ∧ 0x80 ≤ c2 ∧ c2 ≤ 0xBF ∧ 0x80 ≤ c3 ∧ c3 ≤ 0xBF)
                    && isValidUtf8 rest3
                else if 0xF1 ≤ b ∧ b ≤ 0xF3 then
                  decide (0x80 ≤ c1 ∧ c1 ≤ 0xBF ∧ 0x80 ≤ c2 ∧ c2 ≤ 0xBF ∧ 0x80 ≤ c3 ∧ c3 ≤ 0xBF)
                    && isValidUtf8 rest3
                else if b = 0xF4 then
                  decide (0x80 ≤ c1 ∧ c1 ≤ 0x8F ∧ 0x80 ≤ c2 ∧ c2 ≤ 0xBF ∧ 0x80 ≤ c3 ∧ c3 ≤ 0xBF)
                    && isValidUtf8 rest3
                else false

/-- Embeds `String::from_utf8` at byte level: the same bytes on success, a
UTF-8 error otherwise. -/
def string_from_utf8 (s : List Nat) : Except ParseError (List Nat) :=
  if isValidUtf8 s then .ok s else .error .StringError

/-- Embeds `struct CommandRequest` of `src/socks/v5.rs` (the reserved byte is
read and discarded by the parser, so it is not a field). -/
structure CommandRequest where
  command : Command
  address : Address
  port : Nat
  deriving DecidableEq

/-- Embeds the address arm of `CommandRequest::parse`: dispatch on the atype
byte, read 4 octets (IPv4), 16 octets (IPv6) or a length byte followed by
that many DNS bytes run through `String::from_utf8`; any other atype is
`UnsupportedAddressType`. -/
def parseAddress (atype : Nat) (s : List Nat) : Except ParseError Address × List Nat :=
  if atype = ATYPE_IPV4 then
    match readExact 4 s with
    | some (o, rest) => (.ok (.IpAddr (.V4 o)), rest)
    | none => (.error .Io, [])
  else if atype = ATYPE_IPV6 then
    match readExact 16 s with
    | some (o, rest) => (.ok (.IpAddr (.V6 o)), rest)
    | none => (.error .Io, [])
  else if atype = ATYPE_DNS then
    match s with
    | [] => (.error .Io, [])
    | size :: s1 =>
      match readExact size s1 with
      | some (buf, rest) =>
        (match string_from_utf8 buf with
         | .ok str => (.ok (.Dns str), rest)
         | .error e => (.error e, rest))
      | none => (.error .Io, [])
  else
    (.error (.ProtocolError (.UnsupportedAddressType atype)), s)

/-- Embeds `CommandRequest::parse` of `src/socks/v5.rs`: version byte (must
be 5), command byte through `Command::try_from`, one reserved byte read and
discarded, the address per its atype, then the big-endian `u16` port. -/
def CommandRequest.parse (s : List Nat) : Except ParseError CommandRequest × List Nat :=
  match s with
  | [] => (.error .Io, [])
  | ver :: s1 =>
    if ver ≠ VERSION then
      (.error (.ProtocolError (.General (.UnsupportedVersion ver))), s1)
    else
      match s1 with
      | [] => (.error .Io, [])
      | cmd :: s2 =>
        match Command.tryFrom cmd with
        | Option.none => (.error (.ProtocolError (.UnsupportedCommand cmd)), s2)
        | some command =>
          match s2 with
          | [] => (.error .Io, [])
          | _rsv :: s3 =>
            match s3 with
            | [] => (.error .Io, [])
            | atype :: s4 =>
              match parseAddress atype s4 with
              | (.error e, rest) => (.error e, rest)
              | (.ok address, s5) =>
                match s5 with
                | hi :: lo :: s6 => (.ok ⟨command, address, hi * 256 + lo⟩, s6)
                | _ => (.error .Io, [])

/-- Embeds `struct ConnectResponse` of `src/socks/v5.rs`. -/
structure ConnectResponse where
  reply : Nat
  address : Address
  port : Nat
  deriving DecidableEq

/-- Embeds `impl From<ConnectResponse> for Vec<u8>`: version, reply, a zero
reserved byte, the encoded address, then the big-endian port. -/
def ConnectResponse.toBytes (r : ConnectResponse) : List Nat :=
  [VERSION, r.reply, 0x0] ++ r.address.toBytes ++ u16be r.port

/-- Embeds `ConnectResponse::success`. -/
def ConnectResponse.success (address : Address) (port : Nat) : ConnectResponse :=
  ⟨RESP_SUCCEEDED, address, port⟩

/-- Embeds `ConnectResponse::geneal_failure` (the source spells it so). -/
def ConnectResponse.geneal_failure : ConnectResponse :=
  ⟨RESP_GENERAL_FAILURE, .IpAddr Ipv4UNSPECIFIED, 0⟩

/-- Embeds `ConnectResponse::network_unreachable`. -/
def ConnectResponse.network_unreachable (address : Address) (port : Nat) : ConnectResponse :=
  ⟨RESP_NETWORK_UNREACHABLE, address, port⟩

/-- Embeds `ConnectResponse::host_unreachable`. -/
def ConnectResponse.host_unreachable (address : Address) (port : Nat) : ConnectResponse :=
  ⟨RESP_HOST_UNREACHABLE, address, port⟩

/-- Embeds `ConnectResponse::connection_refused`. -/
def ConnectResponse.connection_refused (address : Address) (port : Nat) : ConnectResponse :=
  ⟨RESP_CONNECTION_REFUSED, address, port⟩

/-- Embeds `ConnectResponse::unsupported_address`. -/
def ConnectResponse.unsupported_address : ConnectResponse :=
  ⟨RESP_ADDRESS_NOT_SUPPORTED, .IpAddr Ipv4UNSPECIFIED, 0⟩

/-- Embeds `ConnectResponse::unsupported_command`. -/
def ConnectResponse.unsupported_command : ConnectResponse :=
  ⟨RESP_COMMAND_NOT_SUPPORTED, .IpAddr Ipv4UNSPECIFIED, 0⟩

/-- Embeds `impl From<Errors> for ConnectResponse`. -/
def ConnectResponse.ofErrors : Errors → ConnectResponse
  | .General _ => .geneal_failure
  | .UnsupportedCommand _ => .unsupported_command
  | .UnsupportedAddressType _ => .unsupported_address

end v5

namespace resolver

/-- Embeds `k8s_openapi ContainerPort`: the fields the resolver reads. -/
structure ContainerPort where
  name : Option String
  containerPort : Int
  deriving DecidableEq

/-- Embeds `k8s_openapi Container`: the resolver only reads its ports. -/
structure Container where
  ports : Option (List ContainerPort)
  deriving DecidableEq

/-- Embeds `k8s_openapi PodCondition`: the fields the resolver reads. -/
structure PodCondition where
  type_ : String
  status : String
  deriving DecidableEq

/-- Embeds `k8s_openapi PodSpec`: the fields the resolver reads. -/
structure PodSpec where
  hostname : Option String
  containers : List Container
  deriving DecidableEq

/-- Embeds `k8s_openapi PodStatus`: the fields the resolver reads. -/
structure PodStatus where
  conditions : Option (List PodCondition)
  deriving DecidableEq

/-- Embeds `k8s_openapi Pod`: `metadata.name`, `spec`, `status`. -/
structure Pod where
  name : Option String
  spec : Option PodSpec
  status : Option PodStatus
  deriving DecidableEq

/-- Embeds `IntOrString` of `apimachinery`: the source constructor names are
`Int` and `String`; they are shortened here to avoid shadowing the payload
types. -/
inductive IntOrString
  | I (i : Int)
  | S (s : String)
  deriving DecidableEq

/-- Embeds `k8s_openapi ServicePort`: the fields the resolver reads. -/
structure ServicePort where
  port : Int
  targetPort : Option IntOrString
  deriving DecidableEq

/-- Embeds `k8s_openapi ServiceSpec`: the fields the resolver reads; the
`BTreeMap` selector is an association list in key order. -/
structure ServiceSpec where
  selector : Option (List (String × String))
  ports : Option (List ServicePort)
  deriving DecidableEq

/-- Embeds `k8s_openapi Service`: the resolver only reads its spec. -/
structure Service where
  spec : Option ServiceSpec
  deriving DecidableEq

/-- Models the cluster API surface the resolver consumes: `get_opt` on
Services, `list` on Pods with a label-selector string, and `get_opt` on
Pods. Transport failures (`kube::Error`, mapped by the source to
`LookupFailed`) are not modelled: the cluster is a pure state. -/
structure Cluster where
  getService : String → String → Option Service
  listPods : String → String → List Pod
  getPod : String → String → Option Pod

/-- Embeds `enum Errors` of `src/socks/resolver.rs` (error payloads carrying
`anyhow::Error` or `kube::Error` are dropped). -/
inductive Errors
  | PodNotFound (ns : String) (pod : String)
  | ServiceNotFound (ns : String) (service : String)
  | ServiceInvalid (ns : String) (service : String) (reason : String)
  | ServiceNoReadyPods (ns : String) (service : String)
  | NamedServicePodsNotFound (ns : String) (service : String) (pod : String)
  | PortNotFound (ns : String) (service : String) (port : Nat)
  | UnsupportedAddress (address : String)
  | ForwardFailed
  | LookupFailed
  deriving DecidableEq

/-- Embeds `selector_into_list_params` of `src/socks/resolver.rs`: fold the
selector map into a `k1=v1,k2=v2` label query string. -/
def selector_into_list_params (selectors : List (String × String)) : String :=
  selectors.foldl
    (fun res kv => (if res.isEmpty then res else res ++ ",") ++ kv.1 ++ "=" ++ kv.2) ""

/-- Embeds `u16::try_from` on an `i32` value. -/
def u16_try_from (i : Int) : Option Nat :=
  if 0 ≤ i ∧ i < 65536 then some i.toNat else none

/-- Embeds the ready-pod predicate of `resolve_service`: some status
condition has type `Ready` with status `True`. -/
def pod_is_ready (p : Pod) : Bool :=
  match p.status with
  | some s =>
    match s.conditions with
    | some cs => cs.any (fun c => c.type_ == "Ready" && c.status == "True")
    | Option.none => false
  | Option.none => false

/-- Embeds the sub-hostname predicate of `resolve_service`: the pod's
`spec.hostname`, or its `metadata.name` when the hostname is absent, equals
the requested hostname. -/
def pod_hostname_matches (hostname : String) (p : Pod) : Bool :=
  some hostname == ((p.spec.bind (fun s => s.hostname)).or p.name)

/-- Embeds the named-target lookup of `resolve_service`: the first container
port of the pod whose name equals the service port name, converted to `u16`. -/
def named_container_port (pod : Pod) (port_name : String) : Option Nat :=
  pod.spec.bind (fun spec =>
    ((spec.containers.flatMap (fun c => c.ports.getD [])).find?
        (fun p => p.name == some port_name)).bind
      (fun p => u16_try_from p.containerPort))

/-- Embeds the service-port lookup of `resolve_service`: the `targetPort` of
the first entry of the Service's ports whose `port` equals the requested
port. -/
def service_target_port (service : Service) (port : Nat) : Option IntOrString :=
  (service.spec.bind (fun s =>
    (s.ports.getD []).find? (fun p => p.port == (port : Int)))).bind
    (fun p => p.targetPort)

/-- Embeds the `pod_port` match of `resolve_service`: a named target is
looked up among the chosen pod's container ports (`PortNotFound` when the
lookup yields nothing), an integer target must fit `u16` (`ServiceInvalid`
otherwise), and no target passes the requested port through. -/
def pod_port_resolve (ns service_name : String) (port : Nat) (pod : Pod)
    (service_port : Option IntOrString) : Except Errors Nat :=
  match service_port with
  | some (.S port_name) =>
    match named_container_port pod port_name with
    | some v => .ok v
    | Option.none => .error (.PortNotFound ns service_name port)
  | some (.I i) =>
    match u16_try_from i with
    | some v => .ok v
    | Option.none =>
      .error (.ServiceInvalid ns service_name "could not convert target port to u16")
  | Option.none => .ok port

/-- Embeds `PodResolver::resolve_service` of `src/socks/resolver.rs`,
including its dead branch: the source tests `segments.len() == 2` twice, so
the three-segment `<sub>.<service>.<namespace>` arm is unreachable and any
segment count other than 2 is `UnsupportedAddress`. -/
def resolve_service (c : Cluster) (segments : List String) (port : Nat) :
    Except Errors (String × String × Nat) :=
  let parsed : Option (Option String × String × String) :=
    if segments.length = 2 then
      some (Option.none, segments.getD 0 "", segments.getD 1 "")
    else if segments.length = 2 then
      some (some (segments.getD 0 ""), segments.getD 1 "", segments.getD 2 "")
    else
      Option.none
  match parsed with
  | Option.none =>
    .error (.UnsupportedAddress (String.intercalate "." segments ++ "svc.cluster.local"))
  | some (pod_hostname, service_name, ns) =>
    match c.getService ns service_name with
    | Option.none => .error (.ServiceNotFound ns service_name)
    | some service =>
      match service.spec with
      | Option.none => .error (.ServiceInvalid ns service_name "spec is not set")
      | some spec =>
        match spec.selector with
        | Option.none => .error (.ServiceInvalid ns service_name "spec.selectors is not set")
        | some selectors =>
          let pods := c.listPods ns (selector_into_list_params selectors)
          match pod_hostname with
          | some hostname =>
            match pods.find? (pod_hostname_matches hostname) with
            | some pod => .ok (pod.name.getD "", ns, port)
            | Option.none => .error (.NamedServicePodsNotFound ns service_name hostname)
          | Option.none =>
            match pods.find? pod_is_ready with
            | some pod =>
              (pod_port_resolve ns service_name port pod
                  (service_target_port service port)).map
                (fun pod_port => (pod.name.getD "", ns, pod_port))
            | Option.none => .error (.ServiceNoReadyPods ns service_name)

/-- Embeds `PodResolver::resolve_pod` of `src/socks/resolver.rs`: exactly two
segments, the pod must exist, the port passes through unchecked (the source
carries a TODO there). -/
def resolve_pod (c : Cluster) (segments : List String) (port : Nat) :
    Except Errors (String × String × Nat) :=
  if segments.length ≠ 2 then
    .error (.UnsupportedAddress (String.intercalate "." segments ++ "pod.cluster.local"))
  else
    let pod_name := segments.getD 0 ""
    let ns := segments.getD 1 ""
    match c.getPod ns pod_name with
    | some _ => .ok (pod_name, ns, port)
    | Option.none => .error (.PodNotFound ns pod_name)

/-- Embeds `PodResolver::resolve` of `src/socks/resolver.rs`: split the name
on dots, pop the last segment, strip a trailing `cluster.local` pair when
present (re-popping the kind segment), then dispatch on `svc` / `pod`. -/
def resolve (c : Cluster) (address : String) (port : Nat) :
    Except Errors (String × String × Nat) :=
  let segments := address.split (fun ch => ch == '.')
  match segments.getLast? with
  | Option.none => .error (.UnsupportedAddress address)
  | some seg0 =>
    let rest0 := segments.dropLast
    let stripped : Except Errors (String × List String) :=
      if seg0 = "local" ∧ rest0.getLast? = some "cluster" then
        match (rest0.dropLast).getLast? with
        | some seg1 => .ok (seg1, (rest0.dropLast).dropLast)
        | Option.none => .error (.UnsupportedAddress address)
      else
        .ok (seg0, rest0)
    match stripped with
    | .error e => .error e
    | .ok (segment, segs) =>
      if segment = "svc" then resolve_service c segs port
      else if segment = "pod" then resolve_pod c segs port
      else .error (.UnsupportedAddress address)

end resolver

namespace v4

/-- Protocol constant `VERSION` of `src/socks/v4.rs`. -/
def VERSION : Nat := 4

def METHOD_CONNECT : Nat := 1

def METHOD_BIND : Nat := 2

/-- Embeds `SOCKS4A_ADDRESS`: the 0.0.0.1 sentinel of SOCKS4a. -/
def SOCKS4A_ADDRESS : List Nat := [0, 0, 0, 1]

def RESP_VERSION : Nat := 0

def RESP_CODE_GRANTED : Nat := 90

def RESP_CODE_REJECT_OR_FAILED : Nat := 91

/-- Embeds `struct Response` of `src/socks/v4.rs`. -/
structure Response where
  version : Nat
  result : Nat
  dest_port : Nat
  dest_ip : List Nat
  deriving DecidableEq

/-- Embeds `Response::granted`. -/
def Response.granted (dest_port : Nat) (dest_ip : List Nat) : Response :=
  ⟨RESP_VERSION, RESP_CODE_GRANTED, dest_port, dest_ip⟩

/-- Embeds `Response::rejected_or_failed`. -/
def Response.rejected_or_failed (dest_port : Nat) (dest_ip : List Nat) : Response :=
  ⟨RESP_VERSION, RESP_CODE_REJECT_OR_FAILED, dest_port, dest_ip⟩

/-- Embeds `Response::to_buf`: the fixed 8-byte frame, port big-endian. -/
def Response.to_buf (r : Response) : List Nat :=
  [r.version, r.result] ++ u16be r.dest_port ++ r.dest_ip

end v4

/-- Embeds `discard_until_null` of `src/socks/mod.rs`: drop bytes up to and
including the first zero; `none` when the stream ends first (I/O error). -/
def discard_until_null : List Nat → Option (List Nat)
  | [] => none
  | b :: rest => if b = 0 then some rest else discard_until_null rest

/-- Embeds `read_until_null` of `src/socks/mod.rs`: the bytes before the
first zero and the remainder after it; `none` when the stream ends first. -/
def read_until_null : List Nat → Option (List Nat × List Nat)
  | [] => none
  | b :: rest =>
    if b = 0 then some ([], rest)
    else
      match read_until_null rest with
      | some (acc, rem) => some (b :: acc, rem)
      | none => none

/-- Embeds `handle_v4` of `src/socks/mod.rs`: read version, method, port,
address; reject BIND and unknown methods; discard the userid; acknowledge a
SOCKS4a request (sentinel address) with GRANTED after reading its hostname,
and reject every literal IPv4 request. Returns the bytes written and the
unread remainder, or `none` on an I/O failure (short stream). -/
def handle_v4 (input : List Nat) : Option (List Nat × List Nat) :=
  match input with
  | _ver :: method :: hi :: lo :: rest2 =>
    match readExact 4 rest2 with
    | some (dest_addr, rest3) =>
      let dest_port := hi * 256 + lo
      if method = v4.METHOD_BIND then
        some ((v4.Response.rejected_or_failed dest_port dest_addr).to_buf, rest3)
      else if method ≠ v4.METHOD_CONNECT then
        some ((v4.Response.rejected_or_failed dest_port dest_addr).to_buf, rest3)
      else
        match discard_until_null rest3 with
        | some rest4 =>
          if dest_addr = v4.SOCKS4A_ADDRESS then
            match read_until_null rest4 with
            | some (_addr, rest5) =>
              some ((v4.Response.granted dest_port dest_addr).to_buf, rest5)
            | none => none
          else
            some ((v4.Response.rejected_or_failed dest_port dest_addr).to_buf, rest4)
        | none => none
    | none => none
  | _ => none

/-- Embeds the resolver-error match inside `handle_v5` of `src/socks/mod.rs`:
the `ConnectResponse` sent to the client for each resolver error, given the
request's address and port. -/
def errorResponse (e : resolver.Errors) (address : v5.Address) (port : Nat) :
    v5.ConnectResponse :=
  match e with
  | .PodNotFound _ _ => v5.ConnectResponse.host_unreachable address port
  | .ServiceNotFound _ _ => v5.ConnectResponse.host_unreachable address port
  | .NamedServicePodsNotFound _ _ _ => v5.ConnectResponse.host_unreachable address port
  | .PortNotFound _ _ _ => v5.ConnectResponse.connection_refused address port
  | .UnsupportedAddress _ => v5.ConnectResponse.unsupported_address
  | .ForwardFailed => v5.ConnectResponse.geneal_failure
  | .LookupFailed => v5.ConnectResponse.geneal_failure
  | .ServiceInvalid _ _ _ => v5.ConnectResponse.geneal_failure
  | .ServiceNoReadyPods _ _ => v5.ConnectResponse.connection_refused address port

/-- Models the `PodResolver::forwarder` call available to `handle_v5`:
resolution plus port-forward opening, abstracted to its outcome on the DNS
address bytes and requested port. -/
def ResolverFn : Type := List Nat → Nat → Except resolver.Errors Unit

/-- Embeds `handle_v5` of `src/socks/mod.rs`: auth negotiation (reject when
`NOT_REQUIRED` is absent), command parsing (protocol errors answered with
the mapped response, other errors propagated), rejection of non-CONNECT
commands and of IP-literal addresses, resolver-error responses, and the
success response. Returns the bytes written to the client and the unread
remainder; the relay after a success response is outside the model. -/
def handle_v5 (input : List Nat) (forwarder : ResolverFn) :
    Except v5.ParseError (List Nat × List Nat) :=
  match v5.AuthRequest.parse input with
  | (.error e, _) => .error e
  | (.ok auth_request, s1) =>
    if !auth_request.contains .NotRequired then
      .ok (v5.AuthResponse.none.toBytes, s1)
    else
      let w0 := v5.AuthResponse.not_required.toBytes
      match v5.CommandRequest.parse s1 with
      | (.error (.ProtocolError e), s2) =>
        .ok (w0 ++ (v5.ConnectResponse.ofErrors e).toBytes, s2)
      | (.error e, _) => .error e
      | (.ok req, s2) =>
        if req.command ≠ v5.Command.Connect then
          .ok (w0 ++ v5.ConnectResponse.unsupported_command.toBytes, s2)
        else
          match req.address with
          | v5.Address.IpAddr _ =>
            .ok (w0 ++ v5.ConnectResponse.unsupported_command.toBytes, s2)
          | v5.Address.Dns a =>
            match forwarder a req.port with
            | .error e =>
              .ok (w0 ++ (errorResponse e req.address req.port).toBytes, s2)
            | .ok _ =>
              .ok (w0 ++ (v5.ConnectResponse.success req.address req.port).toBytes, s2)

/-! Concrete fixtures used by the claim theorems below. -/

/-- Forwarder outcome that always succeeds (never consulted by the claims
that use it). -/
def okForwarder : ResolverFn := fun _ _ => .ok ()

/-- Forwarder outcome failing with `ServiceNoReadyPods`, as the resolver does
for a service whose listed pods are all unready. -/
def noReadyForwarder : ResolverFn := fun _ _ => .error (.ServiceNoReadyPods "ns1" "api")

/-- UTF-8 bytes of the name `api.ns1.svc`. -/
def apiDnsBytes : List Nat := [97, 112, 105, 46, 110, 115, 49, 46, 115, 118, 99]

/-- Cluster with no objects at all. -/
def emptyCluster : resolver.Cluster := ⟨fun _ _ => none, fun _ _ => [], fun _ _ => none⟩

/-- Pod `mypod` with hostname `mypod`, one container exposing port `http` =
8080, and a `Ready=True` condition. -/
def apiPod : resolver.Pod :=
  ⟨some "mypod", some ⟨some "mypod", [⟨some [⟨some "http", 8080⟩]⟩]⟩,
   some ⟨some [⟨"Ready", "True"⟩]⟩⟩

/-- Service `api` selecting `app=api`, mapping service port 80 to the
integer target port 8080. -/
def apiService : resolver.Service :=
  ⟨some ⟨some [("app", "api")], some [⟨80, some (.I 8080)⟩]⟩⟩

/-- Cluster holding `apiService` and `apiPod` in namespace `ns1`. -/
def apiCluster : resolver.Cluster :=
  ⟨fun ns name => if ns = "ns1" ∧ name = "api" then some apiService else none,
   fun ns sel => if ns = "ns1" ∧ sel = "app=api" then [apiPod] else [],
   fun _ _ => none⟩

/-- C1: the handler answers a CONNECT to the IP literal 192.0.2.1:80 with
`ConnectResponse::unsupported_command` — full reply bytes
`05 07 00 01 00 00 00 00 00 00`, reply byte COMMAND_NOT_SUPPORTED (0x07) and
not the ADDRESS_NOT_SUPPORTED (0x08) the claim states: the source calls
`unsupported_command()` where its own log line says `unsupported address`. -/
theorem c1_ip_literal_gets_command_not_supported :
    handle_v5 [5, 1, 0, 5, 1, 0, 1, 0xC0, 0x00, 0x02, 0x01, 0x00, 0x50] okForwarder =
      .ok ([5, 0] ++ [5, 7, 0, 1, 0, 0, 0, 0, 0, 0], [])
    ∧ v5.ConnectResponse.unsupported_command.toBytes = [5, 7, 0, 1, 0, 0, 0, 0, 0, 0]
    ∧ v5.RESP_COMMAND_NOT_SUPPORTED ≠ v5.RESP_ADDRESS_NOT_SUPPORTED := by
  refine ⟨by decide, by decide, by decide⟩

/-- C2: the name `mypod.api.ns1.svc` (three segments before the kind) is
rejected by `resolve` with `UnsupportedAddress` even though the cluster holds
a service `api` in `ns1` whose selector lists a pod whose hostname is
`mypod`: the duplicated `len == 2` condition in `resolve_service` makes the
three-segment arm unreachable. The second conjunct shows the pod the claim
expects to be returned is present and matched by the sub-hostname predicate. -/
theorem c2_three_segment_svc_rejected :
    resolver.resolve apiCluster "mypod.api.ns1.svc" 80 =
      .error (.UnsupportedAddress "mypod.api.ns1svc.cluster.local")
    ∧ (apiCluster.listPods "ns1"
        (resolver.selector_into_list_params [("app", "api")])).find?
          (resolver.pod_hostname_matches "mypod") = some apiPod := by
  constructor
  · have h1 : "mypod.api.ns1.svc".split (fun ch => ch == '.') =
        ["mypod", "api", "ns1", "svc"] := by
      simp +decide [String.split, String.splitAux.eq_def]
    simp only [resolver.resolve, h1]
    decide
  · decide

/-- C3 counterexample: when the resolver fails with `ServiceNoReadyPods` on a
CONNECT to `api.ns1.svc:80`, the handler's failure response echoes the
requested DNS address and port (`05 05 00 03 0B "api.ns1.svc" 00 50`): its
encoded address field is not the IPv4 address 0.0.0.0 and its port is not 0. -/
theorem c3_counterexample :
    handle_v5 ([5, 1, 0, 5, 1, 0, 3, 11] ++ apiDnsBytes ++ [0, 80]) noReadyForwarder =
      .ok ([5, 0] ++ [5, 5, 0, 3, 11] ++ apiDnsBytes ++ [0, 80], [])
    ∧ [5, 5, 0, 3, 11] ++ apiDnsBytes ++ [0, 80] ≠
        [5, v5.RESP_CONNECTION_REFUSED, 0, 1, 0, 0, 0, 0, 0, 0] := by
  refine ⟨by decide, by decide⟩

/-- C3 (amended): every failure response the handler builds for a resolver
error has a non-SUCCEEDED reply byte, and either has reply HOST_UNREACHABLE
or CONNECTION_REFUSED and echoes the request's address and port, or has
reply GENERAL_FAILURE or ADDRESS_NOT_SUPPORTED and carries the IPv4 address
0.0.0.0 with port 0. -/
theorem c3_failure_response_address (e : resolver.Errors) (addr : v5.Address) (port : Nat) :
    (errorResponse e addr port).reply ≠ v5.RESP_SUCCEEDED
    ∧ ((errorResponse e addr port).reply ∈
          [v5.RESP_HOST_UNREACHABLE, v5.RESP_CONNECTION_REFUSED]
        ∧ (errorResponse e addr port).address = addr
        ∧ (errorResponse e addr port).port = port
      ∨ (errorResponse e addr port).reply ∈
          [v5.RESP_GENERAL_FAILURE, v5.RESP_ADDRESS_NOT_SUPPORTED]
        ∧ (errorResponse e addr port).address = .IpAddr v5.Ipv4UNSPECIFIED
        ∧ (errorResponse e addr port).port = 0) := by
  cases e <;>
    simp [errorResponse, v5.ConnectResponse.host_unreachable,
      v5.ConnectResponse.connection_refused, v5.ConnectResponse.unsupported_address,
      v5.ConnectResponse.geneal_failure, v5.RESP_SUCCEEDED, v5.RESP_HOST_UNREACHABLE,
      v5.RESP_CONNECTION_REFUSED, v5.RESP_GENERAL_FAILURE,
      v5.RESP_ADDRESS_NOT_SUPPORTED]

/-- C5: the reply byte of the response the handler sends for each resolver
error follows the spec's table: PodNotFound, ServiceNotFound and
NamedServicePodsNotFound give HOST_UNREACHABLE; ServiceNoReadyPods and
PortNotFound give CONNECTION_REFUSED; UnsupportedAddress gives
ADDRESS_NOT_SUPPORTED; ServiceInvalid, ForwardFailed and LookupFailed give
GENERAL_FAILURE. -/
theorem c5_error_reply_mapping (addr : v5.Address) (port : Nat)
    (ns svc pod reason a : String) (p : Nat) :
    (errorResponse (.PodNotFound ns pod) addr port).reply = v5.RESP_HOST_UNREACHABLE
    ∧ (errorResponse (.ServiceNotFound ns svc) addr port).reply = v5.RESP_HOST_UNREACHABLE
    ∧ (errorResponse (.NamedServicePodsNotFound ns svc pod) addr port).reply =
        v5.RESP_HOST_UNREACHABLE
    ∧ (errorResponse (.ServiceNoReadyPods ns svc) addr port).reply =
        v5.RESP_CONNECTION_REFUSED
    ∧ (errorResponse (.PortNotFound ns svc p) addr port).reply =
        v5.RESP_CONNECTION_REFUSED
    ∧ (errorResponse (.UnsupportedAddress a) addr port).reply =
        v5.RESP_ADDRESS_NOT_SUPPORTED
    ∧ (errorResponse (.ServiceInvalid ns svc reason) addr port).reply =
        v5.RESP_GENERAL_FAILURE
    ∧ (errorResponse .ForwardFailed addr port).reply = v5.RESP_GENERAL_FAILURE
    ∧ (errorResponse .LookupFailed addr port).reply = v5.RESP_GENERAL_FAILURE := by
  refine ⟨rfl, rfl, rfl, rfl, rfl, rfl, rfl, rfl, rfl⟩

/-! Helper lemmas shared by the claim theorems. -/

theorem readExact_append_eq (n : Nat) (l r : List Nat) (h : l.length = n) :
    readExact n (l ++ r) = some (l, r) := by
  unfold readExact
  rw [if_pos (by simp [List.length_append]; omega)]
  rw [List.take_left' h, List.drop_left' h]

theorem u16be_pair (hi lo : Nat) (h1 : hi < 256) (h2 : lo < 256) :
    u16be (hi * 256 + lo) = [hi, lo] := by
  simp [u16be]
  constructor <;> omega

theorem discard_until_null_append (userid rest : List Nat) (h : ∀ b ∈ userid, b ≠ 0) :
    discard_until_null (userid ++ 0 :: rest) = some rest := by
  induction userid with
  | nil => simp [discard_until_null]
  | cons b bs ih =>
    have hb : b ≠ 0 := h b (by simp)
    simp only [List.cons_append, discard_until_null]
    rw [if_neg hb]
    exact ih (fun x hx => h x (by simp [hx]))

theorem read_until_null_append (host rest : List Nat) (h : ∀ b ∈ host, b ≠ 0) :
    read_until_null (host ++ 0 :: rest) = some (host, rest) := by
  induction host with
  | nil => simp [read_until_null]
  | cons b bs ih =>
    have hb : b ≠ 0 := h b (by simp)
    have ih' := ih (fun x hx => h x (by simp [hx]))
    simp [read_until_null, hb, ih']

/-- C6: when the parsed auth request does not contain `NOT_REQUIRED`, the
handler writes exactly the two bytes `05 FF` and returns with the rest of
the stream (any command request included) unread. -/
theorem c6_auth_gate (forwarder : ResolverFn) (s s1 : List Nat) (auth : v5.AuthRequest)
    (hp : v5.AuthRequest.parse s = (.ok auth, s1))
    (hc : auth.contains .NotRequired = false) :
    handle_v5 s forwarder = .ok ([5, 0xFF], s1)
    ∧ v5.AuthResponse.none.toBytes = [5, 0xFF] := by
  constructor
  · simp only [handle_v5, hp, hc]
    rfl
  · rfl

/-- C6 witness: for the stream `05 01 02` (only USER_PASS offered) followed
by a CONNECT frame, the handler answers `05 FF` and leaves the whole CONNECT
frame unread. -/
theorem c6_auth_gate_witness :
    v5.AuthRequest.parse [5, 1, 2, 5, 1, 0, 1, 9, 9, 9, 9, 0, 80] =
      (.ok ⟨[.Basic]⟩, [5, 1, 0, 1, 9, 9, 9, 9, 0, 80])
    ∧ v5.AuthRequest.contains ⟨[.Basic]⟩ .NotRequired = false
    ∧ handle_v5 [5, 1, 2, 5, 1, 0, 1, 9, 9, 9, 9, 0, 80] okForwarder =
        .ok ([5, 0xFF], [5, 1, 0, 1, 9, 9, 9, 9, 0, 80]) := by
  refine ⟨by decide, by decide, ?_⟩
  exact (c6_auth_gate okForwarder [5, 1, 2, 5, 1, 0, 1, 9, 9, 9, 9, 0, 80]
    [5, 1, 0, 1, 9, 9, 9, 9, 0, 80] ⟨[.Basic]⟩ (by decide) (by decide)).1

/-- C7: `AuthRequest::parse` fails with `UnsupportedVersion v` (consuming
only the version byte) whenever the first byte is not 5; on a version byte 5
followed by a count byte `n` and `n` method bytes it succeeds, consumes
exactly `n + 2` bytes (the remainder is untouched), and returns exactly the
recognized method bytes; the recognized bytes are exactly 0x00, 0x01, 0x02
and 0xFF. -/
theorem c7_auth_request_parse :
    (∀ (v : Nat) (s : List Nat), v ≠ 5 →
      v5.AuthRequest.parse (v :: s) =
        (.error (.ProtocolError (.General (.UnsupportedVersion v))), s))
    ∧ (∀ (n : Nat) (methods rest : List Nat), methods.length = n →
      v5.AuthRequest.parse (5 :: n :: (methods ++ rest)) =
        (.ok ⟨methods.filterMap v5.AuthMethods.tryFrom⟩, rest))
    ∧ (∀ b : Nat, (v5.AuthMethods.tryFrom b).isSome = true ↔
        (b = 0x00 ∨ b = 0x01 ∨ b = 0x02 ∨ b = 0xFF)) := by
  refine ⟨?_, ?_, ?_⟩
  · intro v s h
    simp [v5.AuthRequest.parse, v5.VERSION, h]
  · intro n methods rest h
    cases n with
    | zero =>
      have hm : methods = [] := List.eq_nil_of_length_eq_zero h
      subst hm
      simp [v5.AuthRequest.parse, v5.VERSION]
    | succ m =>
      simp only [v5.AuthRequest.parse, v5.VERSION]
      rw [if_neg (by omega : ¬ (5 ≠ 5)), if_neg (by omega : ¬ (m + 1 = 0)),
        readExact_append_eq (m + 1) methods rest h]
  · intro b
    rw [v5.AuthMethods.tryFrom.eq_def]
    split <;> simp_all

/-- C7 witness: version byte 4 is rejected as `UnsupportedVersion 4` leaving
`[9]` unread; the stream `05 03 00 07 FF` followed by `[1, 2]` parses to the
methods `NotRequired, None` (the unknown byte 7 dropped) leaving `[1, 2]`
unread; byte 2 is a recognized tag. -/
theorem c7_auth_request_parse_witness :
    (4 : Nat) ≠ 5
    ∧ v5.AuthRequest.parse [4, 9] =
        (.error (.ProtocolError (.General (.UnsupportedVersion 4))), [9])
    ∧ ([0, 7, 255] : List Nat).length = 3
    ∧ v5.AuthRequest.parse [5, 3, 0, 7, 255, 1, 2] =
        (.ok ⟨[.NotRequired, .None]⟩, [1, 2])
    ∧ ((v5.AuthMethods.tryFrom 2).isSome = true ↔
        ((2 : Nat) = 0x00 ∨ (2 : Nat) = 0x01 ∨ (2 : Nat) = 0x02 ∨ (2 : Nat) = 0xFF)) := by
  refine ⟨by decide, c7_auth_request_parse.1 4 [9] (by decide), by decide, ?_,
    c7_auth_request_parse.2.2 2⟩
  exact c7_auth_request_parse.2.1 3 [0, 7, 255] [1, 2] (by decide)

/-- C9: in the SOCKS4 flow, a CONNECT to a literal IPv4 destination other
than the 4a sentinel is answered with the 8 bytes
`[0, 91, port_hi, port_lo, ip0, ip1, ip2, ip3]` (REJECTED_OR_FAILED), and a
SOCKS4a request (sentinel destination with a null-terminated hostname) is
answered with `[0, 90, port_hi, port_lo, 0, 0, 0, 1]` (GRANTED) — the
handler takes no forwarder at all, so no forwarding can occur. -/
theorem c9_v4_flow :
    (∀ (hi lo : Nat) (ip userid rest : List Nat),
      hi < 256 → lo < 256 → ip.length = 4 → ip ≠ v4.SOCKS4A_ADDRESS →
      (∀ b ∈ userid, b ≠ 0) →
      handle_v4 ([4, 1, hi, lo] ++ ip ++ userid ++ 0 :: rest) =
        some ([0, 91, hi, lo] ++ ip, rest))
    ∧ (∀ (hi lo : Nat) (userid host rest : List Nat),
      hi < 256 → lo < 256 → (∀ b ∈ userid, b ≠ 0) → (∀ b ∈ host, b ≠ 0) →
      handle_v4 ([4, 1, hi, lo] ++ [0, 0, 0, 1] ++ userid ++ 0 :: (host ++ 0 :: rest)) =
        some ([0, 90, hi, lo, 0, 0, 0, 1], rest)) := by
  constructor
  · intro hi lo ip userid rest hhi hlo hlen hip huid
    have hbuf : (v4.Response.rejected_or_failed (hi * 256 + lo) ip).to_buf =
        [0, 91, hi, lo] ++ ip := by
      simp [v4.Response.to_buf, v4.Response.rejected_or_failed, v4.RESP_VERSION,
        v4.RESP_CODE_REJECT_OR_FAILED, u16be_pair hi lo hhi hlo]
    simp only [List.cons_append, List.nil_append, List.append_assoc]
    simp only [handle_v4, readExact_append_eq 4 ip _ hlen,
      discard_until_null_append userid rest huid, v4.METHOD_BIND, v4.METHOD_CONNECT]
    norm_num
    rw [if_neg hip]
    simp [hbuf]
  · intro hi lo userid host rest hhi hlo huid hhost
    have hbuf : (v4.Response.granted (hi * 256 + lo) [0, 0, 0, 1]).to_buf =
        [0, 90, hi, lo, 0, 0, 0, 1] := by
      simp [v4.Response.to_buf, v4.Response.granted, v4.RESP_VERSION,
        v4.RESP_CODE_GRANTED, u16be_pair hi lo hhi hlo]
    have hre : readExact 4 (0 :: 0 :: 0 :: 1 :: (userid ++ 0 :: (host ++ 0 :: rest))) =
        some ([0, 0, 0, 1], userid ++ 0 :: (host ++ 0 :: rest)) := by
      simp [readExact]
    simp only [List.cons_append, List.nil_append, List.append_assoc]
    simp only [handle_v4, hre, discard_until_null_append userid _ huid,
      read_until_null_append host rest hhost, v4.METHOD_BIND, v4.METHOD_CONNECT,
      v4.SOCKS4A_ADDRESS]
    simp [hbuf]

/-- C9 witness: a SOCKS4 CONNECT to 192.0.2.1:80 is answered with code 91
and the echoed port and address; a SOCKS4a CONNECT with hostname `ex` is
answered `[0, 90, 0, 80, 0, 0, 0, 1]`. -/
theorem c9_v4_flow_witness :
    handle_v4 ([4, 1, 0, 80] ++ [192, 0, 2, 1] ++ [117] ++ 0 :: [7, 7]) =
      some ([0, 91, 0, 80] ++ [192, 0, 2, 1], [7, 7])
    ∧ handle_v4 ([4, 1, 0, 80] ++ [0, 0, 0, 1] ++ [117] ++ 0 :: ([101, 120] ++ 0 :: [9])) =
        some ([0, 90, 0, 80, 0, 0, 0, 1], [9]) := by
  exact ⟨c9_v4_flow.1 0 80 [192, 0, 2, 1] [117] [7, 7] (by decide) (by decide) (by decide)
      (by decide) (by decide),
    c9_v4_flow.2 0 80 [117] [101, 120] [9] (by decide) (by decide) (by decide) (by decide)⟩

/-- C10: for a DNS string of at most 255 bytes, the encoder produces exactly
the atype byte 3, the length byte and the string bytes (the length byte is
the length truncated to `u8`, so the bound is required), and parsing a
CONNECT frame carrying that encoding returns the original string and leaves
the rest of the stream unread. -/
theorem c10_dns_roundtrip (s : List Nat) (hi lo : Nat) (rest : List Nat)
    (hlen : s.length ≤ 255) (hutf : v5.isValidUtf8 s = true) :
    v5.Address.toBytes (.Dns s) = 3 :: s.length :: s
    ∧ v5.CommandRequest.parse ([5, 1, 0] ++ v5.Address.toBytes (.Dns s) ++ (hi :: lo :: rest)) =
        (.ok ⟨.Connect, .Dns s, hi * 256 + lo⟩, rest) := by
  have htb : v5.Address.toBytes (.Dns s) = 3 :: s.length :: s := by
    simp [v5.Address.toBytes, v5.ATYPE_DNS, Nat.mod_eq_of_lt (by omega : s.length < 256)]
  refine ⟨htb, ?_⟩
  rw [htb]
  simp only [List.cons_append, List.nil_append, List.append_assoc]
  simp only [v5.CommandRequest.parse, v5.VERSION, v5.Command.tryFrom, v5.parseAddress,
    v5.ATYPE_IPV4, v5.ATYPE_IPV6, v5.ATYPE_DNS,
    readExact_append_eq s.length s _ rfl, v5.string_from_utf8, hutf]
  simp

/-- C10 witness: the bytes of `api.ns1.svc` (11 bytes of valid UTF-8) encode
to `03 0B` plus the bytes and round-trip through CONNECT parsing at port 80,
leaving trailing bytes `[1, 2]` unread. -/
theorem c10_dns_roundtrip_witness :
    v5.Address.toBytes (.Dns apiDnsBytes) = 3 :: 11 :: apiDnsBytes
    ∧ v5.CommandRequest.parse
        ([5, 1, 0] ++ v5.Address.toBytes (.Dns apiDnsBytes) ++ (0 :: 80 :: [1, 2])) =
      (.ok ⟨.Connect, .Dns apiDnsBytes, 80⟩, [1, 2]) := by
  exact c10_dns_roundtrip apiDnsBytes 0 80 [1, 2] (by decide) (by decide)

/-- C4: for the ready pod chosen for a two-segment svc name, `resolve_service`
returns that pod's name with the port mapped by `pod_port_resolve` over the
matching service-port's target; the mapping sends an integer target that
fits `u16` to itself, an integer target that does not fit to
`ServiceInvalid`, a named target to the pod's container port of that name
when the lookup succeeds and to `PortNotFound` when it yields nothing, and
no matching service-port entry to the requested port unchanged. -/
theorem c4_service_port_mapping (c : resolver.Cluster) (ns svc_name : String) (port : Nat)
    (service : resolver.Service) (sspec : resolver.ServiceSpec)
    (sel : List (String × String)) (pod : resolver.Pod)
    (h1 : c.getService ns svc_name = some service)
    (h2 : service.spec = some sspec)
    (h3 : sspec.selector = some sel)
    (h4 : (c.listPods ns (resolver.selector_into_list_params sel)).find?
        resolver.pod_is_ready = some pod) :
    resolver.resolve_service c [svc_name, ns] port =
      (resolver.pod_port_resolve ns svc_name port pod
          (resolver.service_target_port service port)).map
        (fun pod_port => (pod.name.getD "", ns, pod_port))
    ∧ (∀ i : Int, 0 ≤ i → i < 65536 →
        resolver.pod_port_resolve ns svc_name port pod (some (.I i)) = .ok i.toNat)
    ∧ (∀ i : Int, ¬ (0 ≤ i ∧ i < 65536) →
        resolver.pod_port_resolve ns svc_name port pod (some (.I i)) =
          .error (.ServiceInvalid ns svc_name "could not convert target port to u16"))
    ∧ (∀ (port_name : String) (v : Nat),
        resolver.named_container_port pod port_name = some v →
        resolver.pod_port_resolve ns svc_name port pod (some (.S port_name)) = .ok v)
    ∧ (∀ port_name : String,
        resolver.named_container_port pod port_name = none →
        resolver.pod_port_resolve ns svc_name port pod (some (.S port_name)) =
          .error (.PortNotFound ns svc_name port))
    ∧ resolver.pod_port_resolve ns svc_name port pod none = .ok port := by
  refine ⟨?_, ?_, ?_, ?_, ?_, ?_⟩
  · simp only [resolver.resolve_service]
    norm_num
    simp only [h1, h2, h3, h4]
  · intro i hi0 hi1
    simp [resolver.pod_port_resolve, resolver.u16_try_from, hi0, hi1]
  · intro i hno
    simp [resolver.pod_port_resolve, resolver.u16_try_from, hno]
  · intro port_name v hv
    simp [resolver.pod_port_resolve, hv]
  · intro port_name hv
    simp [resolver.pod_port_resolve, hv]
  · rfl

/-- C4 witness: in `apiCluster`, service `api` in `ns1` selects the ready
pod `mypod` and maps service port 80 to the integer target 8080, so
`resolve_service` returns `(mypod, ns1, 8080)`. -/
theorem c4_service_port_mapping_witness :
    apiCluster.getService "ns1" "api" = some apiService
    ∧ (apiCluster.listPods "ns1"
        (resolver.selector_into_list_params [("app", "api")])).find?
          resolver.pod_is_ready = some apiPod
    ∧ resolver.resolve_service apiCluster ["api", "ns1"] 80 =
        (resolver.pod_port_resolve "ns1" "api" 80 apiPod
            (resolver.service_target_port apiService 80)).map
          (fun pod_port => (apiPod.name.getD "", "ns1", pod_port))
    ∧ resolver.resolve_service apiCluster ["api", "ns1"] 80 = .ok ("mypod", "ns1", 8080) := by
  refine ⟨by decide, by decide, ?_, by decide⟩
  exact (c4_service_port_mapping apiCluster "ns1" "api" 80 apiService
    ⟨some [("app", "api")], some [⟨80, some (.I 8080)⟩]⟩ [("app", "api")] apiPod
    (by decide) rfl rfl (by decide)).1

/-- C8 counterexample: for the name `x` (port 80, empty cluster), resolving
with and without the `cluster.local` suffix gives different results: the
`UnsupportedAddress` error payload carries the full address in each case. -/
theorem c8_counterexample :
    resolver.resolve emptyCluster "x.cluster.local" 80 ≠ resolver.resolve emptyCluster "x" 80
    ∧ resolver.resolve emptyCluster "x.cluster.local" 80 =
        .error (.UnsupportedAddress "x.cluster.local")
    ∧ resolver.resolve emptyCluster "x" 80 = .error (.UnsupportedAddress "x") := by
  have h1 : "x.cluster.local".split (fun ch => ch == '.') = ["x", "cluster", "local"] := by
    simp +decide [String.split, String.splitAux.eq_def]
  have h2 : "x".split (fun ch => ch == '.') = ["x"] := by
    simp +decide [String.split, String.splitAux.eq_def]
  refine ⟨?_, ?_, ?_⟩ <;> simp only [resolver.resolve, h1, h2] <;> decide

/-- C8 (amended): for every cluster, port and name whose final dot-segment
is `svc` or `pod`, resolving the name with the trailing `cluster.local`
suffix equals resolving the name without it (the suffix-stripping step hands
the same segments to the same sub-resolver). -/
theorem c8_cluster_local_suffix (c : resolver.Cluster) (port : Nat) (name : String)
    (hk : (name.split (fun ch => ch == '.')).getLast? = some "svc" ∨
          (name.split (fun ch => ch == '.')).getLast? = some "pod")
    (hs : (name ++ ".cluster.local").split (fun ch => ch == '.') =
          name.split (fun ch => ch == '.') ++ ["cluster", "local"]) :
    resolver.resolve c (name ++ ".cluster.local") port = resolver.resolve c name port := by
  have hklast : ∃ k, (name.split (fun ch => ch == '.')).getLast? = some k ∧
      (k = "svc" ∨ k = "pod") := by
    rcases hk with h | h
    exacts [⟨"svc", h, Or.inl rfl⟩, ⟨"pod", h, Or.inr rfl⟩]
  obtain ⟨k, hlast, hkv⟩ := hklast
  obtain ⟨init, hinit⟩ := List.getLast?_eq_some_iff.mp hlast
  simp only [resolver.resolve, hs, hinit]
  have hassoc : (init ++ [k]) ++ ["cluster", "local"] =
      ((init ++ [k]) ++ ["cluster"]) ++ ["local"] := by simp
  rw [hassoc]
  rcases hkv with rfl | rfl <;>
    simp +decide [List.getLast?_concat, List.dropLast_concat]

/-- C8 witness: `resolve(api.ns1.svc.cluster.local, 80)` equals
`resolve(api.ns1.svc, 80)` on `apiCluster`, both returning the ready pod
`mypod` with the mapped port 8080. -/
theorem c8_cluster_local_suffix_witness :
    resolver.resolve apiCluster ("api.ns1.svc" ++ ".cluster.local") 80 =
      resolver.resolve apiCluster "api.ns1.svc" 80
    ∧ resolver.resolve apiCluster "api.ns1.svc" 80 = .ok ("mypod", "ns1", 8080) := by
  constructor
  · exact c8_cluster_local_suffix apiCluster 80 "api.ns1.svc"
      (Or.inl (by simp +decide [String.split, String.splitAux.eq_def]))
      (by simp +decide [String.split, String.splitAux.eq_def])
  · have h1 : "api.ns1.svc".split (fun ch => ch == '.') = ["api", "ns1", "svc"] := by
      simp +decide [String.split, String.splitAux.eq_def]
    simp only [resolver.resolve, h1]
    decide
